import Mathlib

/- Shallow embedding of the signal-evaluation engine of `src/Bot.py`
   (MT5 multi-symbol checklist monitor).  Prices are modelled as exact
   rationals and pandas/NumPy NaN entries as `Option.none`.  Three
   external numeric routines that the engine calls are taken as function
   parameters, since no verified property depends on their values:
   `np.log` (inside the Fisher transform), the square root inside the
   Bollinger-band standard deviation, and the `ta` RSI indicator. -/

/-- One OHLC bar.  The source indexes bars by timestamp; the engine only
reads the hour of day of the newest bar, so the timestamp is modelled by
its hour.  The open price (`opn`; `open` is a Lean keyword) is carried but
never read by the engine. -/
structure Bar where
  hour : ℕ
  opn : ℚ
  high : ℚ
  low : ℚ
  close : ℚ
  deriving DecidableEq

/-- Configuration constant `FISHER_PERIOD = 10` (Bot.py line 33). -/
def FISHER_PERIOD : ℕ := 10

/-- Configuration constant `FISHER_RSI_GAP = 0.6` (Bot.py line 35). -/
def FISHER_RSI_GAP : ℚ := 0.6

/-- Configuration constant `SR_LOOKBACK = 20` (Bot.py line 36). -/
def SR_LOOKBACK : ℕ := 20

/-- Configuration constant `M15_LOOKBACK = 200` (Bot.py line 37). -/
def M15_LOOKBACK : ℕ := 200

/-- Configuration constant `EMA50_M15_PERIOD = 50` (Bot.py line 38). -/
def EMA50_M15_PERIOD : ℕ := 50

/-- Configuration constant `SMA200_PERIOD = 200` (Bot.py line 39). -/
def SMA200_PERIOD : ℕ := 200

/-- Configuration constant `SMA400_PERIOD = 400` (Bot.py line 40). -/
def SMA400_PERIOD : ℕ := 400

/-- Configuration constant `BOLL_WINDOW = 20` (Bot.py line 41). -/
def BOLL_WINDOW : ℕ := 20

/-- Binary maximum on rationals, written out so that the kernel can
evaluate it on concrete inputs. -/
def rmax (a b : ℚ) : ℚ := if a ≤ b then b else a

/-- Binary minimum on rationals. -/
def rmin (a b : ℚ) : ℚ := if a ≤ b then a else b

/-- Absolute value on rationals (`abs(...)` in the source). -/
def rabs (a : ℚ) : ℚ := if a < 0 then -a else a

/-- `np.max` over a price window: `none` on an empty list (pandas/NumPy
would yield NaN or raise; every call site passes a nonempty window). -/
def qmax : List ℚ → Option ℚ
  | [] => none
  | x :: xs => some (xs.foldl rmax x)

/-- `np.min` over a price window. -/
def qmin : List ℚ → Option ℚ
  | [] => none
  | x :: xs => some (xs.foldl rmin x)

/-- `np.clip(raw, -0.999, 0.999)` (Bot.py line 63). -/
def clip999 (q : ℚ) : ℚ := rmin 0.999 (rmax (-0.999) q)

/-- The window `price[i - period + 1 : i + 1]` read by the Fisher
transform at index `i` (Bot.py line 56). -/
def fisherWindow (price : List ℚ) (period i : ℕ) : List ℚ :=
  (price.drop (i + 1 - period)).take period

/-- One update of the Fisher transform's carried value at index `i`:
the raw value of Bot.py lines 59-63 (already clipped), computed from the
incoming carried value `prev` (`prev_val` in the source). -/
def fisher_raw_step (price : List ℚ) (period i : ℕ) (prev : ℚ) : ℚ :=
  let w := fisherWindow price period i
  match qmax w, qmin w with
  | some mx, some mn =>
      clip999 (if mx - mn = 0 then 0
               else 0.33 * 2 * (((price.getD i 0) - mn) / (mx - mn) - 0.5) + 0.67 * prev)
  | _, _ => clip999 0

/-- The Fisher value `0.5 * np.log((1 + raw) / (1 - raw))` of Bot.py
line 65, with `np.log` abstracted as the parameter `log`. -/
def fisherY (log : ℚ → ℚ) (raw : ℚ) : ℚ := 0.5 * log ((1 + raw) / (1 - raw))

/-- The filtered value written at a processed index `i` (Bot.py
lines 65-66): the plain Fisher value of the updated raw at `i = period`,
and the `0.5 / 0.5` blend with `filt[i - 1]` (passed in as `filtPrev`)
for `i > period`. -/
def fisherFiltStep (log : ℚ → ℚ) (price : List ℚ) (period i : ℕ) (prev filtPrev : ℚ) : ℚ :=
  if period < i then
    0.5 * fisherY log (fisher_raw_step price period i prev) + 0.5 * filtPrev
  else fisherY log (fisher_raw_step price period i prev)

/-- The loop body of `fisher_transform` (Bot.py lines 53-67): `fuel`
iterations starting at index `i`, threading the carried raw value
`prev` (`prev_val`) and the previous filtered value `filtPrev`
(`filt[i - 1]`; the `filt` array is zero-initialised, and an index the
loop skips leaves its entry at `0`).  Each iteration emits one output
entry: `none` (NaN) for a skipped index, `some` of the filtered value
otherwise. -/
def fisherLoop (log : ℚ → ℚ) (price : List ℚ) (period : ℕ) :
    ℕ → ℕ → ℚ → ℚ → List (Option ℚ)
  | 0, _, _, _ => []
  | fuel + 1, i, prev, filtPrev =>
    if i < period then
      none :: fisherLoop log price period fuel (i + 1) prev 0
    else
      some (fisherFiltStep log price period i prev filtPrev) ::
        fisherLoop log price period fuel (i + 1) (fisher_raw_step price period i prev)
          (fisherFiltStep log price period i prev filtPrev)

/-- `fisher_transform(series, period)` (Bot.py lines 46-68): the output
series aligned 1:1 with the close-price list, `none` standing for the
NaN entries of indices below the warm-up length. -/
def fisher_transform (log : ℚ → ℚ) (price : List ℚ) (period : ℕ) : List (Option ℚ) :=
  fisherLoop log price period price.length 0 0 0

/-- The value of the carried variable `prev_val` of `fisher_transform`
on entry to loop iteration `i` (so `fisher_prev_into price period 0 = 0`,
the initialisation of Bot.py line 52; an iteration updates it exactly
when the loop body runs, i.e. when `period ≤ i < price.length`). -/
def fisher_prev_into (price : List ℚ) (period : ℕ) : ℕ → ℚ
  | 0 => 0
  | i + 1 =>
    if i < price.length ∧ period ≤ i then
      fisher_raw_step price period i (fisher_prev_into price period i)
    else fisher_prev_into price period i

/-- The clipped raw value actually used by `fisher_transform` at index
`i` (its carried value threaded in). -/
def fisher_raw_at (price : List ℚ) (period i : ℕ) : ℚ :=
  fisher_raw_step price period i (fisher_prev_into price period i)

/-- The defined (post-warm-up) output values of `fisher_transform` as an
indexed recurrence (Bot.py line 66): the plain Fisher value exactly at
`i = period`, and the `0.5 / 0.5` exponential blend with the previous
output at `i > period`.  Only indices `i ≥ period` are ever read. -/
def fisher_filt (log : ℚ → ℚ) (price : List ℚ) (period : ℕ) : ℕ → ℚ
  | 0 => fisherY log (fisher_raw_at price period 0)
  | i + 1 =>
    if period < i + 1 then
      0.5 * fisherY log (fisher_raw_at price period (i + 1)) + 0.5 * fisher_filt log price period i
    else fisherY log (fisher_raw_at price period (i + 1))

/-- The breach kinds returned by `detect_minor_sr_breach`
(`'resistance'` / `'support'`). -/
inductive SRKind where
  | resistance
  | support
  deriving DecidableEq

/-- The reference window `df_h1.iloc[-lookback-1:-1]` of Bot.py
line 125: the last `lookback + 1` bars with the newest bar removed. -/
def sr_recent (df : List Bar) (lookback : ℕ) : List Bar :=
  (df.drop (df.length - (lookback + 1))).dropLast

/-- `prev_high = recent['high'].max()` (Bot.py line 126). -/
def sr_prev_high (df : List Bar) (lookback : ℕ) : Option ℚ :=
  qmax ((sr_recent df lookback).map Bar.high)

/-- `prev_low = recent['low'].min()` (Bot.py line 127). -/
def sr_prev_low (df : List Bar) (lookback : ℕ) : Option ℚ :=
  qmin ((sr_recent df lookback).map Bar.low)

/-- `detect_minor_sr_breach(df_h1, lookback)` (Bot.py lines 122-134).
Returns the classification together with the reference level and the
distance beyond it, or `none` for "no signal" (the source's
`(None, None, 0.0)`).  The tolerance `small_pct = 0.0005` is fixed in
the source body. -/
def detect_minor_sr_breach (df : List Bar) (lookback : ℕ) : Option (SRKind × ℚ × ℚ) :=
  if df.length < lookback + 2 then none
  else
    match df.getLast?, sr_prev_high df lookback, sr_prev_low df lookback with
    | some last, some prev_high, some prev_low =>
      if prev_high * (1 + 0.0005) < last.high then
        some (SRKind.resistance, prev_high, last.high - prev_high)
      else if last.low < prev_low * (1 - 0.0005) then
        some (SRKind.support, prev_low, prev_low - last.low)
      else none
    | _, _, _ => none

/-- Tests whether a detector result is a resistance breach. -/
def isResistanceBreach : Option (SRKind × ℚ × ℚ) → Bool
  | some (SRKind.resistance, _, _) => true
  | _ => false

/-- Tests whether a detector result is a support breach. -/
def isSupportBreach : Option (SRKind × ℚ × ℚ) → Bool
  | some (SRKind.support, _, _) => true
  | _ => false

/-- The recursive tail of `ewm(span, adjust=False).mean()`: each output
is `a * x + (1 - a) * previous`. -/
def emaRun (a : ℚ) (prev : ℚ) : List ℚ → List ℚ
  | [] => []
  | x :: xs => (a * x + (1 - a) * prev) :: emaRun a (a * x + (1 - a) * prev) xs

/-- `close.ewm(span=span, adjust=False).mean()` (Bot.py line 113): the
standard recursive EMA with `a = 2 / (span + 1)`, seeded with the first
close; defined at every index. -/
def emaList (span : ℕ) : List ℚ → List ℚ
  | [] => []
  | x :: xs => x :: emaRun (2 / ((span : ℚ) + 1)) x xs

/-- The trailing window of length `w` ending at index `i`. -/
def rollWindow (w : ℕ) (l : List ℚ) (i : ℕ) : List ℚ :=
  (l.drop (i + 1 - w)).take w

/-- `close.rolling(window=w).mean()` (Bot.py lines 114-115): `none`
(NaN) until the window fills, then the arithmetic mean of the trailing
`w` closes. -/
def smaList (w : ℕ) (l : List ℚ) : List (Option ℚ) :=
  (List.range l.length).map fun i =>
    if i + 1 < w then none
    else some ((rollWindow w l i).sum / (w : ℚ))

/-- The upper Bollinger band of `ta.volatility.BollingerBands(close,
window, window_dev)` (Bot.py lines 116-117): rolling mean plus `dev`
times the rolling population standard deviation (the `ta` library uses
`std(ddof=0)`), with the square root abstracted as `sqrtFn`; `none`
(NaN) until the window fills. -/
def bollUpper (sqrtFn : ℚ → ℚ) (w : ℕ) (dev : ℚ) (l : List ℚ) : List (Option ℚ) :=
  (List.range l.length).map fun i =>
    if i + 1 < w then none
    else
      let win := rollWindow w l i
      let m := win.sum / (w : ℚ)
      some (m + dev * sqrtFn ((win.map fun x => (x - m) * (x - m)).sum / (w : ℚ)))

/-- The lower Bollinger band (Bot.py line 118), as `bollUpper` with the
deviation subtracted. -/
def bollLower (sqrtFn : ℚ → ℚ) (w : ℕ) (dev : ℚ) (l : List ℚ) : List (Option ℚ) :=
  (List.range l.length).map fun i =>
    if i + 1 < w then none
    else
      let win := rollWindow w l i
      let m := win.sum / (w : ℚ)
      some (m - dev * sqrtFn ((win.map fun x => (x - m) * (x - m)).sum / (w : ℚ)))

/-- `not_out_bands = bb_l < price < bb_h` (Bot.py line 229): the
fast-stage containment condition, strict on both sides. -/
def not_out_bands (bb_l price bb_h : ℚ) : Bool :=
  decide (bb_l < price) && decide (price < bb_h)

/-- The fast-stage undefined-value guard
`np.isnan([ema50, sma200, sma400, bb_h, bb_l]).any()` (Bot.py line 226):
true when any of the five indicator values at the newest M15 bar is
undefined. -/
def m15_guard_undefined (sqrtFn : ℚ → ℚ) (df : List Bar) : Bool :=
  let closes := df.map Bar.close
  ((emaList EMA50_M15_PERIOD closes).getLast?).isNone ||
  (((smaList SMA200_PERIOD closes).getLast?).join).isNone ||
  (((smaList SMA400_PERIOD closes).getLast?).join).isNone ||
  (((bollUpper sqrtFn BOLL_WINDOW 2 closes).getLast?).join).isNone ||
  (((bollLower sqrtFn BOLL_WINDOW 2 closes).getLast?).join).isNone

/-- `ChecklistMonitor.monitor_m15` (Bot.py lines 217-234), as the
boolean "retrace confirmed" outcome: `false` both for the silent early
returns (no data fetched, undefined indicator value) and for a cycle
whose three fast-stage conditions do not all hold; `true` exactly when
the source would tick the retrace and ALL checkboxes and notify. -/
def monitor_m15_confirmed (sqrtFn : ℚ → ℚ) (df? : Option (List Bar)) : Bool :=
  match df? with
  | none => false
  | some df =>
    match df.getLast? with
    | none => false
    | some lastBar =>
      if m15_guard_undefined sqrtFn df then false
      else
        let closes := df.map Bar.close
        let price := lastBar.close
        match (emaList EMA50_M15_PERIOD closes).getLast?,
              ((smaList SMA200_PERIOD closes).getLast?).join,
              ((smaList SMA400_PERIOD closes).getLast?).join,
              ((bollUpper sqrtFn BOLL_WINDOW 2 closes).getLast?).join,
              ((bollLower sqrtFn BOLL_WINDOW 2 closes).getLast?).join with
        | some ema50, some sma200, some sma400, some bb_h, some bb_l =>
          decide (sma400 < sma200) && not_out_bands bb_l price bb_h &&
            decide (rabs (price - ema50) ≤ 0.0004)
        | _, _, _, _, _ => false

/-- The per-instrument Checklist State: the five booleans shown as
checkboxes (Bot.py lines 150-156, `self.vars[0]` .. `self.vars[4]`)
plus the time-of-day gate `self.h1_time_ok`.  The four slow gates are
`h1_sr_breached`, `h1_left_fisher`, `h1_last_close_below_50`,
`h1_time_ok`; the two fast-timeframe booleans are `m15_retrace_ok`
(`vars[3]`) and `all_ok` (`vars[4]`). -/
structure ChecklistState where
  h1_sr_breached : Bool
  h1_left_fisher : Bool
  h1_last_close_below_50 : Bool
  h1_time_ok : Bool
  m15_retrace_ok : Bool
  all_ok : Bool
  deriving DecidableEq

/-- The observable outcome of one pass of the `monitor_loop` body:
the Checklist State after the pass, whether the "H1 conditions met"
notification fired, whether the "M15 retrace confirmed, ALL conditions
met" notification fired, and how many times `monitor_m15` was called. -/
structure CycleOut where
  state : ChecklistState
  notifiedH1 : Bool
  notifiedM15 : Bool
  m15Calls : ℕ
  deriving DecidableEq

/-- The RSI value at the newest H1 bar (`last_h1['rsi']`, Bot.py
line 199), with the external `ta.momentum.RSIIndicator` computation
abstracted as `rsiFn`; out-of-range or NaN entries give `none`. -/
def h1_rsi_last (rsiFn : List ℚ → List (Option ℚ)) (dfH1 : List Bar) : Option ℚ :=
  ((rsiFn (dfH1.map Bar.close)).get? (dfH1.length - 1)).join

/-- The Fisher-transform value at the newest H1 bar (`last_h1['fisher']`,
Bot.py line 199). -/
def h1_fisher_last (logFn : ℚ → ℚ) (dfH1 : List Bar) : Option ℚ :=
  ((fisher_transform logFn (dfH1.map Bar.close) FISHER_PERIOD).get? (dfH1.length - 1)).join

/-- Slow gate A, `self.h1_sr_breached = bool(sr_type)` (Bot.py
line 195). -/
def gate_sr_breached (dfH1 : List Bar) : Bool :=
  (detect_minor_sr_breach dfH1 SR_LOOKBACK).isSome

/-- Slow gate B, `self.h1_left_fisher = abs(gap) >= FISHER_RSI_GAP`
(Bot.py line 200).  A NaN gap (either series undefined at the newest
bar) compares false, as the float comparison does in the source. -/
def gate_left_fisher (rsiFn : List ℚ → List (Option ℚ)) (logFn : ℚ → ℚ)
    (dfH1 : List Bar) : Bool :=
  match h1_rsi_last rsiFn dfH1, h1_fisher_last logFn dfH1 with
  | some r, some f => decide (FISHER_RSI_GAP ≤ rabs (r - f))
  | _, _ => false

/-- Slow gate C, `self.h1_last_close_below_50 = last_h1['rsi'] < 50`
(Bot.py line 203); NaN compares false. -/
def gate_below_50 (rsiFn : List ℚ → List (Option ℚ)) (dfH1 : List Bar) : Bool :=
  match h1_rsi_last rsiFn dfH1 with
  | some r => decide (r < 50)
  | none => false

/-- Slow gate D, `self.h1_time_ok = (9 <= hour <= 10) or
(14 <= hour <= 17)` (Bot.py line 207). -/
def gate_time_ok (lastBar : Bar) : Bool :=
  decide ((9 ≤ lastBar.hour ∧ lastBar.hour ≤ 10) ∨ (14 ≤ lastBar.hour ∧ lastBar.hour ≤ 17))

/-- One pass of the body of `ChecklistMonitor.monitor_loop` (Bot.py
lines 186-212).  `dfH1?` and `dfM15?` are the results of the two
`fetch_ohlc` calls (`none` = no data; `fetch_ohlc` never returns an
empty frame, Bot.py line 97, so an empty list is treated like `none`).
A pass with H1 data overwrites the four slow-gate fields; when all four
gates hold it notifies "H1" and runs `monitor_m15` once, which on
confirmation ticks `vars[3]` and `vars[4]` and notifies "M15" —
those two fields are never written otherwise. -/
def monitorCycle (rsiFn : List ℚ → List (Option ℚ)) (logFn sqrtFn : ℚ → ℚ)
    (dfH1? : Option (List Bar)) (dfM15? : Option (List Bar)) (s : ChecklistState) : CycleOut :=
  match dfH1? with
  | none => ⟨s, false, false, 0⟩
  | some dfH1 =>
    match dfH1.getLast? with
    | none => ⟨s, false, false, 0⟩
    | some lastBar =>
      let g0 := gate_sr_breached dfH1
      let g1 := gate_left_fisher rsiFn logFn dfH1
      let g2 := gate_below_50 rsiFn dfH1
      let g3 := gate_time_ok lastBar
      let s1 : ChecklistState :=
        { h1_sr_breached := g0, h1_left_fisher := g1, h1_last_close_below_50 := g2,
          h1_time_ok := g3, m15_retrace_ok := s.m15_retrace_ok, all_ok := s.all_ok }
      if g0 && g1 && g2 && g3 then
        if monitor_m15_confirmed sqrtFn dfM15? then
          ⟨{ s1 with m15_retrace_ok := true, all_ok := true }, true, true, 1⟩
        else ⟨s1, true, false, 1⟩
      else ⟨s1, false, false, 0⟩

/-- A bar with hour 12 (outside both allowed windows) and flat unit
prices, used as concrete test data. -/
def flatBar : Bar := ⟨12, 1, 1, 1, 1⟩

/-- Three flat bars: too short for every warm-up in the engine. -/
def df3_flat : List Bar := [flatBar, flatBar, flatBar]

/-- A single flat bar. -/
def df1_flat : List Bar := [flatBar]

/-- A Checklist State with every field true. -/
def stAllTrue : ChecklistState := ⟨true, true, true, true, true, true⟩

/-- `stAllTrue` with only the retrace flag cleared. -/
def stAllTrueNoRetrace : ChecklistState := ⟨true, true, true, true, false, true⟩

/-- A Checklist State with every field false. -/
def stAllFalse : ChecklistState := ⟨false, false, false, false, false, false⟩

/-- Four bars for exercising `detect_minor_sr_breach` with lookback 2:
the reference window is `[srBar1, srBar2]` (prev high 2, prev low 1) and
the last bar breaks out on both sides at once. -/
def srBar0 : Bar := ⟨12, 1, 1, 1, 1⟩

/-- Second bar of the breach fixture (high 2, low 1). -/
def srBar1 : Bar := ⟨12, 1, 2, 1, 1⟩

/-- Third bar of the breach fixture (high 2, low 1). -/
def srBar2 : Bar := ⟨12, 1, 2, 1, 1⟩

/-- Newest bar of the breach fixture: high 10 and low 1/10, beyond both
prior extremes by far more than the tolerance. -/
def srBarLast : Bar := ⟨12, 1, 10, 1/10, 1⟩

/-- The four-bar breach fixture. -/
def dfSR : List Bar := [srBar0, srBar1, srBar2, srBarLast]

/-- `dropLast` commutes with `drop`: both sides keep the elements from
index `k` up to the second-to-last one. -/
theorem dropLast_drop_comm {α : Type _} (l : List α) (k : ℕ) :
    (l.drop k).dropLast = l.dropLast.drop k := by
  rw [List.dropLast_eq_take, List.dropLast_eq_take, List.drop_take, List.length_drop]
  congr 1
  omega

/-- The detector's reference window `df.iloc[-lookback-1:-1]` is the
last `lookback` bars of the series with its newest bar removed. -/
theorem sr_recent_eq (df : List Bar) (L : ℕ) :
    sr_recent df L = df.dropLast.drop (df.dropLast.length - L) := by
  rw [sr_recent, dropLast_drop_comm, List.length_dropLast]
  congr 1
  omega

/-- A nonempty list has a last element. -/
theorem getLast?_cons_ne_none {α : Type _} (b : α) (bs : List α) :
    (b :: bs).getLast? ≠ none := by
  induction bs generalizing b with
  | nil => simp
  | cons c cs ih => rw [List.getLast?_cons_cons]; exact ih c

/-- If every entry of a list of optional values is `none`, so is the
join of its last entry. -/
theorem join_getLast?_of_all_none {α : Type _} (l : List (Option α))
    (h : l.all Option.isNone = true) : (l.getLast?).join = none := by
  cases hl : l.getLast? with
  | none => rfl
  | some x =>
    have hmem : x ∈ l := List.mem_of_mem_getLast? (by rw [hl]; exact Option.mem_some_iff.mpr rfl)
    rw [List.all_eq_true] at h
    have hx := h x hmem
    cases x with
    | none => rfl
    | some y => simp at hx

/-- The carried value of the Fisher transform stays at its initial `0`
through every iteration up to and including entry to index `period`. -/
theorem fisher_prev_into_of_le (price : List ℚ) (period : ℕ) :
    ∀ i, i ≤ period → fisher_prev_into price period i = 0 := by
  intro i
  induction i with
  | zero => intro _; rfl
  | succ j ih =>
    intro h
    have hj : ¬ (j < price.length ∧ period ≤ j) := by
      rintro ⟨-, hpj⟩; omega
    rw [fisher_prev_into, if_neg hj]
    exact ih (by omega)

/-- Unfolding of the indexed output recurrence at a post-warm-up
index. -/
theorem fisher_filt_eq (log : ℚ → ℚ) (price : List ℚ) (period : ℕ) (i : ℕ)
    (hper : 1 ≤ period) (hpi : period ≤ i) :
    fisher_filt log price period i
      = if period < i
        then 0.5 * fisherY log (fisher_raw_at price period i)
              + 0.5 * fisher_filt log price period (i - 1)
        else fisherY log (fisher_raw_at price period i) := by
  cases i with
  | zero => omega
  | succ j => simp [fisher_filt]

/-- The loop of `fisher_transform` implements the indexed recurrence:
starting at index `i` with the correctly threaded carried value and
previous filtered value, it emits `none` for every index below the
warm-up length and `some (fisher_filt ...)` from the warm-up index on. -/
theorem fisherLoop_eq (log : ℚ → ℚ) (price : List ℚ) (period : ℕ) (hper : 1 ≤ period) :
    ∀ fuel i, i + fuel = price.length →
      fisherLoop log price period fuel i (fisher_prev_into price period i)
          (if period < i then fisher_filt log price period (i - 1) else 0)
        = (List.range fuel).map
            (fun k => if i + k < period then none
                      else some (fisher_filt log price period (i + k))) := by
  intro fuel
  induction fuel with
  | zero => intro i _; simp [fisherLoop]
  | succ m ih =>
    intro i hlen
    have hi : i < price.length := by omega
    rw [List.range_succ_eq_map, List.map_cons, List.map_map]
    by_cases hip : i < period
    · rw [fisherLoop, if_pos hip]
      have hprev : fisher_prev_into price period (i + 1) = fisher_prev_into price period i := by
        have hc : ¬ (i < price.length ∧ period ≤ i) := by rintro ⟨-, hpj⟩; omega
        rw [fisher_prev_into, if_neg hc]
      have htail := ih (i + 1) (by omega)
      rw [if_neg (by omega : ¬ period < i + 1), hprev] at htail
      rw [htail]
      congr 1
      · rw [Nat.add_zero, if_pos hip]
      · apply List.map_congr_left
        intro k _
        simp only [Function.comp_apply]
        have hik : i + Nat.succ k = i + 1 + k := by omega
        rw [hik]
    · have hpi : period ≤ i := by omega
      rw [fisherLoop, if_neg hip]
      have hprev : fisher_prev_into price period (i + 1)
          = fisher_raw_step price period i (fisher_prev_into price period i) := by
        rw [fisher_prev_into, if_pos ⟨hi, hpi⟩]
      have hstep : fisherFiltStep log price period i (fisher_prev_into price period i)
            (if period < i then fisher_filt log price period (i - 1) else 0)
          = fisher_filt log price period i := by
        rw [fisherFiltStep, fisher_filt_eq log price period i hper hpi]
        by_cases hlt : period < i
        · rw [if_pos hlt, if_pos hlt, if_pos hlt, fisher_raw_at]
        · rw [if_neg hlt, if_neg hlt, fisher_raw_at]
      rw [hstep]
      have htail := ih (i + 1) (by omega)
      rw [if_pos (by omega : period < i + 1), Nat.add_sub_cancel, hprev] at htail
      rw [htail]
      congr 1
      · rw [Nat.add_zero, if_neg hip]
      · apply List.map_congr_left
        intro k _
        simp only [Function.comp_apply]
        have hik : i + Nat.succ k = i + 1 + k := by omega
        rw [hik]

/-- `fisher_transform` equals the indexed recurrence at every index:
`none` below the warm-up length, `some (fisher_filt ...)` from it on. -/
theorem fisher_transform_eq (log : ℚ → ℚ) (price : List ℚ) (period : ℕ) (hper : 1 ≤ period) :
    fisher_transform log price period
      = (List.range price.length).map
          (fun i => if i < period then none else some (fisher_filt log price period i)) := by
  have h := fisherLoop_eq log price period hper price.length 0 (by omega)
  rw [if_neg (by omega : ¬ period < 0)] at h
  rw [fisher_transform]
  rw [show fisher_prev_into price period 0 = 0 from rfl] at h
  rw [h]
  apply List.map_congr_left
  intro k _
  rw [Nat.zero_add]

/-- Entry access into `fisher_transform`'s output. -/
theorem fisher_transform_get (log : ℚ → ℚ) (price : List ℚ) (period : ℕ)
    (hper : 1 ≤ period) (i : ℕ) (hi : i < price.length) :
    (fisher_transform log price period).get? i
      = some (if i < period then none else some (fisher_filt log price period i)) := by
  rw [fisher_transform_eq log price period hper, List.get?_map, List.get?_range hi]
  rfl

/-- C1 counterexample: on input closes `[1, 2, 3, 4]` with warm-up
length `p = 3`, the carried value `raw_prev` entering the first defined
output index `p` is still its initial `0` — it was NOT updated at the
indices before `p`, although the update rule applied at index `2` (with
window `[1, 2, 3]`) would have produced `0.33 ≠ 0`.  Consequently the
first defined output (taking `np.log` as the identity for concreteness)
equals the value computed from `raw_prev = 0`, `133/134`, not a value
reflecting any earlier accumulation.  This refutes the claim that
`raw_prev` "is updated at every index of the input series, including
indices before the warm-up length p, so that it has already accumulated
by the time the first defined output at index p is computed". -/
theorem fisher_c1_counterexample :
    fisher_prev_into [1, 2, 3, 4] 3 3 = 0 ∧
    fisher_raw_step [1, 2, 3, 4] 3 2 0 = 33 / 100 ∧
    (33 / 100 : ℚ) ≠ 0 ∧
    (fisher_transform (fun q => q) [1, 2, 3, 4] 3).get? 3
      = some (some (fisherY (fun q => q) (fisher_raw_step [1, 2, 3, 4] 3 3 0))) ∧
    fisherY (fun q => q) (fisher_raw_step [1, 2, 3, 4] 3 3 0) = 133 / 134 := by
  have h30 : fisher_prev_into [1, 2, 3, 4] 3 3 = 0 :=
    fisher_prev_into_of_le [1, 2, 3, 4] 3 3 le_rfl
  refine ⟨h30, ?_, by norm_num, ?_, ?_⟩
  · norm_num [fisher_raw_step, fisherWindow, qmax, qmin, rmax, rmin, clip999]
  · rw [fisher_transform_get (fun q => q) [1, 2, 3, 4] 3 (by omega) 3 (by norm_num),
      if_neg (by omega : ¬ 3 < 3), fisher_filt_eq (fun q => q) [1, 2, 3, 4] 3 3 (by omega) le_rfl,
      if_neg (by omega : ¬ 3 < 3), fisher_raw_at, h30]
  · norm_num [fisherY, fisher_raw_step, fisherWindow, qmax, qmin, rmax, rmin, clip999]

/-- C1 (amended): the carried value `raw_prev` of the smoothed-extremum
transform starts at `0` and is NOT updated at indices before the warm-up
length `p`: it is still `0` on entry to every iteration up to and
including index `p`, and the first defined output at index `p` is
computed from `raw_prev = 0`. -/
theorem fisher_c1_prev_first_update_at_warmup (log : ℚ → ℚ) (price : List ℚ) (p : ℕ)
    (hp : 1 ≤ p) (hplen : p < price.length) :
    ((List.range (p + 1)).all fun i => fisher_prev_into price p i == 0) = true ∧
    (fisher_transform log price p).get? p
      = some (some (fisherY log (fisher_raw_step price p p 0))) := by
  constructor
  · rw [List.all_eq_true]
    intro i hmem
    rw [List.mem_range] at hmem
    have h0 := fisher_prev_into_of_le price p i (by omega)
    simp [h0]
  · rw [fisher_transform_get log price p hp p hplen, if_neg (by omega : ¬ p < p),
      fisher_filt_eq log price p p hp le_rfl, if_neg (by omega : ¬ p < p),
      fisher_raw_at, fisher_prev_into_of_le price p p le_rfl]

/-- C1 witness: the amended theorem applied to closes `[1, 2, 3]` with
`p = 2` and `np.log` taken as the identity. -/
theorem fisher_c1_prev_first_update_at_warmup_witness :
    (1 ≤ 2 ∧ 2 < [(1 : ℚ), 2, 3].length) ∧
    (((List.range (2 + 1)).all fun i => fisher_prev_into [1, 2, 3] 2 i == 0) = true ∧
     (fisher_transform (fun q => q) [1, 2, 3] 2).get? 2
       = some (some (fisherY (fun q => q) (fisher_raw_step [1, 2, 3] 2 2 0)))) :=
  ⟨⟨by decide, by decide⟩,
   fisher_c1_prev_first_update_at_warmup (fun q => q) [1, 2, 3] 2 (by decide) (by decide)⟩

/-- C2: for every close series, warm-up length `p ≥ 1` and in-range
index `i`, the smoothed-extremum output is undefined (`none`) at every
index `i < p`; exactly at `i = p` it equals the transformed value
`y = 0.5 * log((1+raw)/(1-raw))` of the clipped raw value at `p`; and at
every `i > p` it equals `0.5 * y_i + 0.5 * filt[i-1]`, where `filt[i-1]`
is precisely the output value at index `i - 1`. -/
theorem fisher_c2_output_recurrence (log : ℚ → ℚ) (price : List ℚ) (p i : ℕ)
    (hp : 1 ≤ p) (hi : i < price.length) :
    (i < p → (fisher_transform log price p).get? i = some none) ∧
    (i = p → (fisher_transform log price p).get? i
        = some (some (fisherY log (fisher_raw_at price p p)))) ∧
    (p < i →
      (fisher_transform log price p).get? i
          = some (some (0.5 * fisherY log (fisher_raw_at price p i)
              + 0.5 * fisher_filt log price p (i - 1))) ∧
      (fisher_transform log price p).get? (i - 1)
          = some (some (fisher_filt log price p (i - 1)))) := by
  refine ⟨?_, ?_, ?_⟩
  · intro h
    rw [fisher_transform_get log price p hp i hi, if_pos h]
  · intro hip
    rw [hip] at hi ⊢
    rw [fisher_transform_get log price p hp p hi, if_neg (by omega : ¬ p < p),
      fisher_filt_eq log price p p hp le_rfl, if_neg (by omega : ¬ p < p)]
  · intro h
    constructor
    · rw [fisher_transform_get log price p hp i hi, if_neg (by omega : ¬ i < p),
        fisher_filt_eq log price p i hp (by omega), if_pos h]
    · rw [fisher_transform_get log price p hp (i - 1) (by omega), if_neg (by omega : ¬ i - 1 < p)]

/-- C2 witness: the recurrence theorem applied to closes `[1, 2, 3]`
with `p = 1` at index `i = 2`, `np.log` taken as the identity. -/
theorem fisher_c2_output_recurrence_witness :
    (1 ≤ 1 ∧ 2 < [(1 : ℚ), 2, 3].length) ∧
    ((2 < 1 → (fisher_transform (fun q => q) [1, 2, 3] 1).get? 2 = some none) ∧
     (2 = 1 → (fisher_transform (fun q => q) [1, 2, 3] 1).get? 2
         = some (some (fisherY (fun q => q) (fisher_raw_at [1, 2, 3] 1 1)))) ∧
     (1 < 2 →
       (fisher_transform (fun q => q) [1, 2, 3] 1).get? 2
           = some (some (0.5 * fisherY (fun q => q) (fisher_raw_at [1, 2, 3] 1 2)
               + 0.5 * fisher_filt (fun q => q) [1, 2, 3] 1 (2 - 1))) ∧
       (fisher_transform (fun q => q) [1, 2, 3] 1).get? (2 - 1)
           = some (some (fisher_filt (fun q => q) [1, 2, 3] 1 (2 - 1))))) :=
  ⟨⟨by decide, by decide⟩,
   fisher_c2_output_recurrence (fun q => q) [1, 2, 3] 1 2 (by decide) (by decide)⟩

/-- C5: for every bar sequence and lookback `L ≥ 1`, the breach detector
reports no signal when fewer than `L + 2` bars are given; otherwise its
reference extremes are exactly the maximum high and minimum low over the
`L` bars immediately preceding the most recent bar (the last `L` bars of
the series with its newest bar removed), a resistance breach is reported
exactly when `last.high > prev_high * (1 + 0.0005)` (tolerance 0.05%),
and a support breach exactly when resistance fails and
`last.low < prev_low * (1 - 0.0005)`. -/
theorem sr_c5_detector_spec (df : List Bar) (L : ℕ) (last : Bar) (ph pl : ℚ)
    (hL : 1 ≤ L) :
    (df.length < L + 2 → detect_minor_sr_breach df L = none) ∧
    (L + 2 ≤ df.length →
      df.getLast? = some last →
      qmax ((df.dropLast.drop (df.dropLast.length - L)).map Bar.high) = some ph →
      qmin ((df.dropLast.drop (df.dropLast.length - L)).map Bar.low) = some pl →
      isResistanceBreach (detect_minor_sr_breach df L)
          = decide (ph * (1 + 0.0005) < last.high) ∧
      isSupportBreach (detect_minor_sr_breach df L)
          = (!(decide (ph * (1 + 0.0005) < last.high))
              && decide (last.low < pl * (1 - 0.0005)))) := by
  constructor
  · intro h
    rw [detect_minor_sr_breach, if_pos h]
  · intro hn hlast hph hpl
    have hph' : sr_prev_high df L = some ph := by
      rw [sr_prev_high, sr_recent_eq]; exact hph
    have hpl' : sr_prev_low df L = some pl := by
      rw [sr_prev_low, sr_recent_eq]; exact hpl
    have hdet : detect_minor_sr_breach df L
        = (if ph * (1 + 0.0005) < last.high then some (SRKind.resistance, ph, last.high - ph)
           else if last.low < pl * (1 - 0.0005) then some (SRKind.support, pl, pl - last.low)
           else none) := by
      rw [detect_minor_sr_breach, if_neg (by omega : ¬ df.length < L + 2), hlast, hph', hpl']
    rw [hdet]
    by_cases hres : ph * (1 + 0.0005) < last.high
    · rw [if_pos hres]
      simp [isResistanceBreach, isSupportBreach, hres]
    · rw [if_neg hres]
      by_cases hsup : last.low < pl * (1 - 0.0005)
      · rw [if_pos hsup]
        simp [isResistanceBreach, isSupportBreach, hres, hsup]
      · rw [if_neg hsup]
        simp [isResistanceBreach, isSupportBreach, hres, hsup]

/-- C5 witness: the detector theorem applied to the four-bar fixture
with lookback 2, reference high 2 and reference low 1. -/
theorem sr_c5_detector_spec_witness :
    1 ≤ 2 ∧
    ((dfSR.length < 2 + 2 → detect_minor_sr_breach dfSR 2 = none) ∧
     (2 + 2 ≤ dfSR.length →
       dfSR.getLast? = some srBarLast →
       qmax ((dfSR.dropLast.drop (dfSR.dropLast.length - 2)).map Bar.high) = some 2 →
       qmin ((dfSR.dropLast.drop (dfSR.dropLast.length - 2)).map Bar.low) = some 1 →
       isResistanceBreach (detect_minor_sr_breach dfSR 2)
           = decide ((2 : ℚ) * (1 + 0.0005) < srBarLast.high) ∧
       isSupportBreach (detect_minor_sr_breach dfSR 2)
           = (!(decide ((2 : ℚ) * (1 + 0.0005) < srBarLast.high))
               && decide (srBarLast.low < (1 : ℚ) * (1 - 0.0005))))) :=
  ⟨by decide, sr_c5_detector_spec dfSR 2 srBarLast 2 1 (by decide)⟩

/-- C6: the detector returns at most one classification per call (its
result type holds a single classification), and on a bar that exceeds
the prior-window maximum by more than the tolerance while simultaneously
falling below the prior-window minimum by more than the tolerance, the
result is the resistance breach — resistance is checked first and wins
the tie-break; no support breach is reported. -/
theorem sr_c6_tiebreak (df : List Bar) (L : ℕ) (last : Bar) (ph pl : ℚ)
    (hn : L + 2 ≤ df.length)
    (hlast : df.getLast? = some last)
    (hph : sr_prev_high df L = some ph)
    (hpl : sr_prev_low df L = some pl)
    (hres : ph * (1 + 0.0005) < last.high)
    (hsup : last.low < pl * (1 - 0.0005)) :
    detect_minor_sr_breach df L = some (SRKind.resistance, ph, last.high - ph) ∧
    isSupportBreach (detect_minor_sr_breach df L) = false := by
  have hdet : detect_minor_sr_breach df L = some (SRKind.resistance, ph, last.high - ph) := by
    rw [detect_minor_sr_breach, if_neg (by omega : ¬ df.length < L + 2), hlast, hph, hpl]
    simp [hres]
  exact ⟨hdet, by rw [hdet]; rfl⟩

/-- C6 witness: the tie-break theorem applied to the four-bar fixture
whose newest bar breaks out on both sides at once. -/
theorem sr_c6_tiebreak_witness :
    (2 + 2 ≤ dfSR.length ∧ dfSR.getLast? = some srBarLast ∧
     sr_prev_high dfSR 2 = some 2 ∧ sr_prev_low dfSR 2 = some 1 ∧
     (2 : ℚ) * (1 + 0.0005) < srBarLast.high ∧ srBarLast.low < (1 : ℚ) * (1 - 0.0005)) ∧
    (detect_minor_sr_breach dfSR 2 = some (SRKind.resistance, 2, srBarLast.high - 2) ∧
     isSupportBreach (detect_minor_sr_breach dfSR 2) = false) := by
  have h1 : 2 + 2 ≤ dfSR.length := by decide
  have h2 : dfSR.getLast? = some srBarLast := rfl
  have h3 : sr_prev_high dfSR 2 = some 2 := by
    norm_num [sr_prev_high, sr_recent, qmax, rmax, dfSR, srBar0, srBar1, srBar2, srBarLast]
  have h4 : sr_prev_low dfSR 2 = some 1 := by
    norm_num [sr_prev_low, sr_recent, qmin, rmin, dfSR, srBar0, srBar1, srBar2, srBarLast]
  have h5 : (2 : ℚ) * (1 + 0.0005) < srBarLast.high := by norm_num [srBarLast]
  have h6 : srBarLast.low < (1 : ℚ) * (1 - 0.0005) := by norm_num [srBarLast]
  exact ⟨⟨h1, h2, h3, h4, h5, h6⟩, sr_c6_tiebreak dfSR 2 srBarLast 2 1 h1 h2 h3 h4 h5 h6⟩

/-- C9: the fast-stage containment condition `not_out_bands` holds if
and only if the close is strictly inside the volatility bands on both
sides; in particular a close exactly equal to either band edge makes it
false. -/
theorem m15_c9_containment_strict (bb_l price bb_h : ℚ) :
    (not_out_bands bb_l price bb_h = true ↔ (bb_l < price ∧ price < bb_h)) ∧
    ((price = bb_h ∨ price = bb_l) → not_out_bands bb_l price bb_h = false) := by
  constructor
  · simp [not_out_bands]
  · rintro (rfl | rfl) <;> simp [not_out_bands]

/-- C9 witness: a close sitting exactly on the upper band is not
contained. -/
theorem m15_c9_containment_strict_witness :
    ((1 : ℚ) = 1 ∨ (1 : ℚ) = 0) ∧ not_out_bands 0 1 1 = false :=
  ⟨Or.inl rfl, (m15_c9_containment_strict 0 1 1).2 (Or.inl rfl)⟩

/-- Every entry of a rolling mean over a series shorter than its window
is undefined. -/
theorem smaList_all_none (w : ℕ) (l : List ℚ) (h : l.length < w) :
    (smaList w l).all Option.isNone = true := by
  rw [List.all_eq_true]
  intro x hx
  rw [smaList, List.mem_map] at hx
  obtain ⟨i, hi, rfl⟩ := hx
  rw [List.mem_range] at hi
  rw [if_pos (by omega)]
  rfl

/-- A fast-timeframe fetch with at most `M15_LOOKBACK` bars leaves
`monitor_m15` silent: the SMA(400) value at the newest bar is undefined,
so the undefined-value guard fires. -/
theorem monitor_m15_short_no_confirm (sqrtFn : ℚ → ℚ) (df : List Bar)
    (h : df.length ≤ M15_LOOKBACK) :
    monitor_m15_confirmed sqrtFn (some df) = false := by
  cases hl : df.getLast? with
  | none => simp [monitor_m15_confirmed, hl]
  | some lastBar =>
    have h200 : df.length ≤ 200 := h
    have hall : (smaList SMA400_PERIOD (df.map Bar.close)).all Option.isNone = true := by
      apply smaList_all_none
      rw [List.length_map]
      show df.length < 400
      omega
    have hj := join_getLast?_of_all_none _ hall
    have hg : m15_guard_undefined sqrtFn df = true := by
      rw [m15_guard_undefined]
      rw [hj]
      simp
    simp [monitor_m15_confirmed, hl, hg]

/-- If the fast stage does not confirm, a cycle emits no M15
notification and leaves both fast-timeframe booleans unchanged. -/
theorem monitorCycle_noconfirm (rsiFn : List ℚ → List (Option ℚ)) (logFn sqrtFn : ℚ → ℚ)
    (dfH1? dfM15? : Option (List Bar)) (s : ChecklistState)
    (h : monitor_m15_confirmed sqrtFn dfM15? = false) :
    (monitorCycle rsiFn logFn sqrtFn dfH1? dfM15? s).notifiedM15 = false ∧
    (monitorCycle rsiFn logFn sqrtFn dfH1? dfM15? s).state.m15_retrace_ok = s.m15_retrace_ok ∧
    (monitorCycle rsiFn logFn sqrtFn dfH1? dfM15? s).state.all_ok = s.all_ok := by
  cases dfH1? with
  | none => simp [monitorCycle]
  | some df =>
    cases hl : df.getLast? with
    | none => simp [monitorCycle, hl]
    | some lastBar =>
      by_cases hg : (gate_sr_breached df && gate_left_fisher rsiFn logFn df
          && gate_below_50 rsiFn df && gate_time_ok lastBar) = true
      · simp [monitorCycle, hl, hg, h]
      · simp [monitorCycle, hl, hg]

/-- The notification and invocation outputs of a cycle do not depend on
the incoming Checklist State. -/
theorem monitorCycle_state_indep (rsiFn : List ℚ → List (Option ℚ)) (logFn sqrtFn : ℚ → ℚ)
    (dfH1? dfM15? : Option (List Bar)) (s s' : ChecklistState) :
    (monitorCycle rsiFn logFn sqrtFn dfH1? dfM15? s).notifiedM15
        = (monitorCycle rsiFn logFn sqrtFn dfH1? dfM15? s').notifiedM15 ∧
    (monitorCycle rsiFn logFn sqrtFn dfH1? dfM15? s).notifiedH1
        = (monitorCycle rsiFn logFn sqrtFn dfH1? dfM15? s').notifiedH1 ∧
    (monitorCycle rsiFn logFn sqrtFn dfH1? dfM15? s).m15Calls
        = (monitorCycle rsiFn logFn sqrtFn dfH1? dfM15? s').m15Calls := by
  cases dfH1? with
  | none => simp [monitorCycle]
  | some df =>
    cases hl : df.getLast? with
    | none => simp [monitorCycle, hl]
    | some lastBar =>
      by_cases hg : (gate_sr_breached df && gate_left_fisher rsiFn logFn df
          && gate_below_50 rsiFn df && gate_time_ok lastBar) = true
      · by_cases hc : monitor_m15_confirmed sqrtFn dfM15? = true
        · simp [monitorCycle, hl, hg, hc]
        · simp [monitorCycle, hl, hg, hc]
      · simp [monitorCycle, hl, hg]

/-- C3: under the shipped configuration the fast-timeframe fetch is
bounded by `M15_LOOKBACK = 200` bars while the long SMA needs
`SMA400_PERIOD = 400` bars, so on any fetched fast series the SMA(400)
is undefined at every index, `monitor_m15`'s undefined-value guard
always returns early, the retrace-confirmed and all-confirmed flags keep
their previous values, and the final confirmation notification is never
emitted. -/
theorem m15_c3_sma400_guard (rsiFn : List ℚ → List (Option ℚ)) (logFn sqrtFn : ℚ → ℚ)
    (dfH1? : Option (List Bar)) (dfM15 : List Bar) (s : ChecklistState)
    (h : dfM15.length ≤ M15_LOOKBACK) :
    ((smaList SMA400_PERIOD (dfM15.map Bar.close)).all Option.isNone) = true ∧
    monitor_m15_confirmed sqrtFn (some dfM15) = false ∧
    (monitorCycle rsiFn logFn sqrtFn dfH1? (some dfM15) s).notifiedM15 = false ∧
    (monitorCycle rsiFn logFn sqrtFn dfH1? (some dfM15) s).state.m15_retrace_ok
        = s.m15_retrace_ok ∧
    (monitorCycle rsiFn logFn sqrtFn dfH1? (some dfM15) s).state.all_ok = s.all_ok := by
  have hconf := monitor_m15_short_no_confirm sqrtFn dfM15 h
  have hc := monitorCycle_noconfirm rsiFn logFn sqrtFn dfH1? (some dfM15) s hconf
  refine ⟨?_, hconf, hc.1, hc.2.1, hc.2.2⟩
  apply smaList_all_none
  rw [List.length_map]
  have h200 : dfM15.length ≤ 200 := h
  show dfM15.length < 400
  omega

/-- C3 witness: the guard theorem applied to a single-bar fast series
(1 ≤ 200 bars). -/
theorem m15_c3_sma400_guard_witness :
    df1_flat.length ≤ M15_LOOKBACK ∧
    (((smaList SMA400_PERIOD (df1_flat.map Bar.close)).all Option.isNone) = true ∧
     monitor_m15_confirmed (fun _ => 0) (some df1_flat) = false ∧
     (monitorCycle (fun l => l.map fun _ => none) (fun _ => 0) (fun _ => 0)
         none (some df1_flat) stAllFalse).notifiedM15 = false ∧
     (monitorCycle (fun l => l.map fun _ => none) (fun _ => 0) (fun _ => 0)
         none (some df1_flat) stAllFalse).state.m15_retrace_ok = stAllFalse.m15_retrace_ok ∧
     (monitorCycle (fun l => l.map fun _ => none) (fun _ => 0) (fun _ => 0)
         none (some df1_flat) stAllFalse).state.all_ok = stAllFalse.all_ok) :=
  ⟨by decide, m15_c3_sma400_guard (fun l => l.map fun _ => none) (fun _ => 0) (fun _ => 0)
    none df1_flat stAllFalse (by decide)⟩

/-- C8: whenever any of the five required indicator values (EMA, either
SMA, either Bollinger band) is undefined at the newest fast-timeframe
bar, the fast stage is silent: `monitor_m15` confirms nothing, no M15
notification is emitted, and the retrace-confirmed and all-confirmed
flags are left unchanged (and the model is total, so no error is
raised). -/
theorem m15_c8_undefined_guard_silent (rsiFn : List ℚ → List (Option ℚ)) (logFn sqrtFn : ℚ → ℚ)
    (dfH1? : Option (List Bar)) (df : List Bar) (s : ChecklistState)
    (h : m15_guard_undefined sqrtFn df = true) :
    monitor_m15_confirmed sqrtFn (some df) = false ∧
    (monitorCycle rsiFn logFn sqrtFn dfH1? (some df) s).notifiedM15 = false ∧
    (monitorCycle rsiFn logFn sqrtFn dfH1? (some df) s).state.m15_retrace_ok
        = s.m15_retrace_ok ∧
    (monitorCycle rsiFn logFn sqrtFn dfH1? (some df) s).state.all_ok = s.all_ok := by
  have hconf : monitor_m15_confirmed sqrtFn (some df) = false := by
    cases hl : df.getLast? with
    | none => simp [monitor_m15_confirmed, hl]
    | some lastBar => simp [monitor_m15_confirmed, hl, h]
  have hc := monitorCycle_noconfirm rsiFn logFn sqrtFn dfH1? (some df) s hconf
  exact ⟨hconf, hc.1, hc.2.1, hc.2.2⟩

/-- C8 witness: the silence theorem applied to a three-bar fast series,
whose SMA(200) value at the newest bar is undefined. -/
theorem m15_c8_undefined_guard_silent_witness :
    m15_guard_undefined (fun _ => 0) df3_flat = true ∧
    (monitor_m15_confirmed (fun _ => 0) (some df3_flat) = false ∧
     (monitorCycle (fun l => l.map fun _ => none) (fun _ => 0) (fun _ => 0)
         none (some df3_flat) stAllFalse).notifiedM15 = false ∧
     (monitorCycle (fun l => l.map fun _ => none) (fun _ => 0) (fun _ => 0)
         none (some df3_flat) stAllFalse).state.m15_retrace_ok = stAllFalse.m15_retrace_ok ∧
     (monitorCycle (fun l => l.map fun _ => none) (fun _ => 0) (fun _ => 0)
         none (some df3_flat) stAllFalse).state.all_ok = stAllFalse.all_ok) :=
  ⟨by decide, m15_c8_undefined_guard_silent (fun l => l.map fun _ => none) (fun _ => 0)
    (fun _ => 0) none df3_flat stAllFalse (by decide)⟩

/-- C7: in a cycle with H1 data, `monitor_m15` is invoked exactly once
when all four freshly computed slow gates hold and not at all otherwise
— the invocation count equals 1 exactly when the conjunction of the four
slow-gate fields written this cycle is true. -/
theorem cycle_c7_fast_stage_iff (rsiFn : List ℚ → List (Option ℚ)) (logFn sqrtFn : ℚ → ℚ)
    (b : Bar) (bs : List Bar) (dfM15? : Option (List Bar)) (s : ChecklistState) :
    (monitorCycle rsiFn logFn sqrtFn (some (b :: bs)) dfM15? s).m15Calls
      = (if (monitorCycle rsiFn logFn sqrtFn (some (b :: bs)) dfM15? s).state.h1_sr_breached
            && (monitorCycle rsiFn logFn sqrtFn (some (b :: bs)) dfM15? s).state.h1_left_fisher
            && (monitorCycle rsiFn logFn sqrtFn (some (b :: bs)) dfM15? s).state.h1_last_close_below_50
            && (monitorCycle rsiFn logFn sqrtFn (some (b :: bs)) dfM15? s).state.h1_time_ok
         then 1 else 0) := by
  cases hl : (b :: bs).getLast? with
  | none => exact absurd hl (getLast?_cons_ne_none b bs)
  | some lastBar =>
    by_cases hg : (gate_sr_breached (b :: bs) && gate_left_fisher rsiFn logFn (b :: bs)
        && gate_below_50 rsiFn (b :: bs) && gate_time_ok lastBar) = true
    · by_cases hc : monitor_m15_confirmed sqrtFn dfM15? = true
      · simp [monitorCycle, hl, hg, hc]
      · simp [monitorCycle, hl, hg, hc]
    · simp [monitorCycle, hl, hg]

/-- C4 counterexample: on a data-bearing cycle (three flat H1 bars at
hour 12) whose slow gates are all false, the post-cycle value of the
retrace-confirmed flag equals whatever it was before the cycle — `true`
from one prior state and `false` from another, while the fast stage was
never invoked.  The field is therefore not freshly recomputed and
overwritten each cycle: it retains a stale value, refuting the claim for
the two fast-timeframe booleans. -/
theorem state_c4_sticky_counterexample :
    (monitorCycle (fun l => l.map fun _ => none) (fun _ => 0) (fun _ => 0)
        (some df3_flat) none stAllTrue).state.m15_retrace_ok = true ∧
    (monitorCycle (fun l => l.map fun _ => none) (fun _ => 0) (fun _ => 0)
        (some df3_flat) none stAllTrueNoRetrace).state.m15_retrace_ok = false ∧
    (monitorCycle (fun l => l.map fun _ => none) (fun _ => 0) (fun _ => 0)
        (some df3_flat) none stAllTrue).m15Calls = 0 ∧
    (monitorCycle (fun l => l.map fun _ => none) (fun _ => 0) (fun _ => 0)
        (some df3_flat) none stAllTrue).state.h1_sr_breached = false := by
  decide

/-- C4 (amended): in every cycle with H1 data the four slow-gate fields
are freshly recomputed and overwritten (their post-cycle values do not
depend on the prior state), but the two fast-timeframe booleans are
never cleared: each equals its previous value OR-ed with this cycle's
fast-stage confirmation, so once set they persist across cycles. -/
theorem state_c4_overwrite_amended (rsiFn : List ℚ → List (Option ℚ)) (logFn sqrtFn : ℚ → ℚ)
    (b : Bar) (bs : List Bar) (dfM15? : Option (List Bar)) (s s' : ChecklistState) :
    (monitorCycle rsiFn logFn sqrtFn (some (b :: bs)) dfM15? s).state.h1_sr_breached
        = (monitorCycle rsiFn logFn sqrtFn (some (b :: bs)) dfM15? s').state.h1_sr_breached ∧
    (monitorCycle rsiFn logFn sqrtFn (some (b :: bs)) dfM15? s).state.h1_left_fisher
        = (monitorCycle rsiFn logFn sqrtFn (some (b :: bs)) dfM15? s').state.h1_left_fisher ∧
    (monitorCycle rsiFn logFn sqrtFn (some (b :: bs)) dfM15? s).state.h1_last_close_below_50
        = (monitorCycle rsiFn logFn sqrtFn (some (b :: bs)) dfM15? s').state.h1_last_close_below_50 ∧
    (monitorCycle rsiFn logFn sqrtFn (some (b :: bs)) dfM15? s).state.h1_time_ok
        = (monitorCycle rsiFn logFn sqrtFn (some (b :: bs)) dfM15? s').state.h1_time_ok ∧
    (monitorCycle rsiFn logFn sqrtFn (some (b :: bs)) dfM15? s).state.m15_retrace_ok
        = (s.m15_retrace_ok
            || (monitorCycle rsiFn logFn sqrtFn (some (b :: bs)) dfM15? s).notifiedM15) ∧
    (monitorCycle rsiFn logFn sqrtFn (some (b :: bs)) dfM15? s).state.all_ok
        = (s.all_ok || (monitorCycle rsiFn logFn sqrtFn (some (b :: bs)) dfM15? s).notifiedM15) := by
  cases hl : (b :: bs).getLast? with
  | none => exact absurd hl (getLast?_cons_ne_none b bs)
  | some lastBar =>
    by_cases hg : (gate_sr_breached (b :: bs) && gate_left_fisher rsiFn logFn (b :: bs)
        && gate_below_50 rsiFn (b :: bs) && gate_time_ok lastBar) = true
    · by_cases hc : monitor_m15_confirmed sqrtFn dfM15? = true
      · simp [monitorCycle, hl, hg, hc]
      · simp [monitorCycle, hl, hg, hc]
    · simp [monitorCycle, hl, hg]

/-- C10: the notification outputs of a cycle are a function of the
fetched data alone — they do not depend on the incoming Checklist
State, so nothing recorded in it can suppress a repeat; in particular a
second cycle run on identical data notifies exactly as the first did
(a confirming cycle re-notifies every cycle). -/
theorem cycle_c10_renotify (rsiFn : List ℚ → List (Option ℚ)) (logFn sqrtFn : ℚ → ℚ)
    (dfH1? dfM15? : Option (List Bar)) (s s' : ChecklistState) :
    (monitorCycle rsiFn logFn sqrtFn dfH1? dfM15? s).notifiedM15
        = (monitorCycle rsiFn logFn sqrtFn dfH1? dfM15? s').notifiedM15 ∧
    (monitorCycle rsiFn logFn sqrtFn dfH1? dfM15? s).notifiedH1
        = (monitorCycle rsiFn logFn sqrtFn dfH1? dfM15? s').notifiedH1 ∧
    (monitorCycle rsiFn logFn sqrtFn dfH1? dfM15?
        ((monitorCycle rsiFn logFn sqrtFn dfH1? dfM15? s).state)).notifiedM15
      = (monitorCycle rsiFn logFn sqrtFn dfH1? dfM15? s).notifiedM15 :=
  ⟨(monitorCycle_state_indep rsiFn logFn sqrtFn dfH1? dfM15? s s').1,
   (monitorCycle_state_indep rsiFn logFn sqrtFn dfH1? dfM15? s s').2.1,
   (monitorCycle_state_indep rsiFn logFn sqrtFn dfH1? dfM15?
     ((monitorCycle rsiFn logFn sqrtFn dfH1? dfM15? s).state) s).1⟩
